import Mathlib

/-!
Verification development for the repository under study.

Part 1 (namespace Tsweb) is a shallow embedding of the package tsweb
(src/tsweb/tsweb.go, lines 1-183): the debug-access gate
AllowDebugAccess, the Protected wrapper, the Port80Handler redirect
logic with stripPort, and the varzHandler Prometheus exporter.
Calls into the Go standard library (net.SplitHostPort, net.ParseIP,
net.IP.IsLoopback), the external package tailscale.com/interfaces
(IsTailscaleIP) and the process environment (os.Getenv) are modelled
as oracle functions gathered in a NetEnv record, since they are
external to this repository.

Part 2 (namespace Magicsock) models the magic-socket core (discovery
engine, socket multiplexer, peer endpoint table, transport lifecycle).
The repository ships only the test file for that core under src, so
those definitions are modelled from the spec, as marked in their doc
comments.
-/

namespace Tsweb

/-- Embedding of strings.HasPrefix from the Go standard library,
computed on the character lists of the strings so that the kernel can
evaluate it. -/
def strStartsWith (s pre : String) : Bool :=
  pre.data.isPrefixOf s.data

/-- Dropping the first n characters of a string, used to embed
strings.TrimPrefix at call sites where the prefix length is known. -/
def strDrop (s : String) (n : Nat) : String :=
  String.mk (s.data.drop n)

/-- Whether a string contains a given character, embedding the colon
test net.JoinHostPort performs on the host. -/
def strContains (s : String) (c : Char) : Bool :=
  s.data.contains c

/-- Oracles for the calls tsweb.go makes outside this repository:
net.SplitHostPort (none models a parse error), the composition
interfaces.IsTailscaleIP with net.ParseIP, the composition
net.IP.IsLoopback with net.ParseIP, the value of os.Getenv
ALLOW_DEBUG_IP, and the DevMode package variable. -/
structure NetEnv where
  splitHostPort : String → Option (String × String)
  isTailscaleIP : String → Bool
  isLoopback : String → Bool
  allowDebugIP : String
  devMode : Bool

/-- The fields of an http.Request that tsweb.go reads: the value of
r.Header.Get X-Forwarded-For, r.RemoteAddr, r.RequestURI, r.Method
and r.Host. -/
structure Request where
  xForwardedFor : String
  remoteAddr : String
  requestURI : String
  method : String
  host : String

/-- Embedding of AllowDebugAccess (tsweb.go lines 58-69): reject when
X-Forwarded-For is non-empty, reject when RemoteAddr does not split as
host and port, otherwise allow exactly when the host part is a
Tailscale IP, a loopback IP, or equals the ALLOW_DEBUG_IP environment
variable. -/
def AllowDebugAccess (env : NetEnv) (r : Request) : Bool :=
  if r.xForwardedFor ≠ "" then
    false
  else
    match env.splitHostPort r.remoteAddr with
    | none => false
    | some (ipStr, _) =>
        env.isTailscaleIP ipStr || env.isLoopback ipStr ||
          ipStr == env.allowDebugIP

/-- Result of running a wrapped handler: either the 403 rejection
written by http.Error, or the result of the inner handler. -/
inductive HandlerResult (α : Type) where
  | forbidden (status : Nat) (body : String)
  | inner (result : α)
  deriving Repr, DecidableEq

/-- The rejection body built by Protected (tsweb.go lines 76-83):
the base message, extended with the remote host when DevMode is set. -/
def protectedMsg (env : NetEnv) (r : Request) : String :=
  let base := "debug access denied"
  if env.devMode then
    let ipStr :=
      match env.splitHostPort r.remoteAddr with
      | some (i, _) => i
      | none => ""
    base ++ "; to permit access, set ALLOW_DEBUG_IP=" ++ ipStr
  else
    base

/-- Embedding of Protected (tsweb.go lines 74-87): a handler that
answers 403 when AllowDebugAccess denies the request and otherwise
delegates to the wrapped handler h. -/
def Protected {α : Type} (env : NetEnv) (h : Request → α) (r : Request) :
    HandlerResult α :=
  if AllowDebugAccess env r then
    .inner (h r)
  else
    .forbidden 403 (protectedMsg env r)

/-- Embedding of net.JoinHostPort from the Go standard library, called
by stripPort: hosts containing a colon are bracketed. -/
def joinHostPort (host port : String) : String :=
  if strContains host ':' then
    "[" ++ host ++ "]:" ++ port
  else
    host ++ ":" ++ port

/-- Embedding of stripPort (tsweb.go lines 116-122): when hostport
splits as host and port, rejoin the host with port 443; otherwise
return hostport unchanged. -/
def stripPort (env : NetEnv) (hostport : String) : String :=
  match env.splitHostPort hostport with
  | none => hostport
  | some (host, _) => joinHostPort host "443"

/-- Outcome of Port80Handler.ServeHTTP: delegation to the Main
handler, the http.Error reply, or an http.Redirect. -/
inductive Port80Result (α : Type) where
  | main (result : α)
  | httpError (status : Nat) (body : String)
  | redirect (status : Nat) (target : String)
  deriving Repr, DecidableEq

/-- Embedding of Port80Handler.ServeHTTP (tsweb.go lines 98-114):
requests whose URI starts with /debug go to the Main handler; other
methods than GET and HEAD get 400 Use HTTPS; otherwise redirect with
302 to the https scheme on the stripped host, sending an authorized
GET or HEAD of the root to /debug/ instead. -/
def port80ServeHTTP {α : Type} (env : NetEnv) (main : Request → α)
    (r : Request) : Port80Result α :=
  let path := r.requestURI
  if path == "/debug" || strStartsWith path "/debug" then
    .main (main r)
  else if r.method ≠ "GET" ∧ r.method ≠ "HEAD" then
    .httpError 400 "Use HTTPS"
  else
    let path :=
      if path = "/" ∧ AllowDebugAccess env r then "/debug/" else path
    .redirect 302 ("https://" ++ stripPort env r.host ++ path)

mutual
/-- The shapes of expvar values that varzHandler (tsweb.go lines
141-183) distinguishes by its type switch and type assertion: an
expvar.Int with its value, a metrics.Set with its key-value entries,
an expvar.Func returning an int or int64, an expvar.Func returning a
value of another type (recorded by the name printed for that type),
and any other expvar.Var implementation (recorded likewise). -/
inductive VarValue where
  | int (n : Int)
  | set (kvs : KVList)
  | funcInt (n : Int)
  | funcOther (tyName : String)
  | other (tyName : String)

/-- The ordered key-value entries of a metrics.Set, as visited by
Set.Do; kept as a dedicated inductive so that the mutual recursion
with VarValue is structural. -/
inductive KVList where
  | nil
  | cons (key : String) (value : VarValue) (rest : KVList)
end

/-- The name and Prometheus type computed by varzHandler after the
type switch (tsweb.go lines 159-165): a key starting with gauge_ or
counter_ has that prefix stripped from the name and fixes the type. -/
def varzNameTyp (pre key : String) : String × String :=
  if strStartsWith key "gauge_" then
    (pre ++ strDrop key 6, "gauge")
  else if strStartsWith key "counter_" then
    (pre ++ strDrop key 8, "counter")
  else
    (pre ++ key, "")

mutual
/-- Embedding of the inner dump closure of varzHandler (tsweb.go lines
144-179), producing the emitted lines for one expvar key-value pair
under a name prefix. An expvar.Int is emitted as a counter under the
unstripped name; a metrics.Set is descended with the key joined to the
prefix by an underscore; an expvar.Func returning int or int64 is
emitted only under a gauge_ or counter_ key; everything else yields a
single skipping comment. -/
def dump (pre key : String) : VarValue → List String
  | .int n =>
      let name := pre ++ key
      ["# TYPE " ++ name ++ " counter", name ++ " " ++ toString n]
  | .set kvs => dumpSet (pre ++ key ++ "_") kvs
  | .funcInt n =>
      let nt := varzNameTyp pre key
      if nt.2 ≠ "" then
        ["# TYPE " ++ nt.1 ++ " " ++ nt.2, nt.1 ++ " " ++ toString n]
      else
        ["# skipping expvar func \"" ++ nt.1 ++
          "\" returning unknown type int64"]
  | .funcOther tyName =>
      let nt := varzNameTyp pre key
      ["# skipping expvar func \"" ++ nt.1 ++
        "\" returning unknown type " ++ tyName]
  | .other tyName =>
      let nt := varzNameTyp pre key
      ["# skipping func \"" ++ nt.1 ++ "\" returning unknown type " ++
        tyName]

/-- Embedding of the iteration Set.Do and expvar.Do perform over their
entries, in order, calling dump on each. -/
def dumpSet (pre : String) : KVList → List String
  | .nil => []
  | .cons k v rest => dump pre k v ++ dumpSet pre rest
end

/-- Embedding of the body varzHandler writes (tsweb.go lines 180-182):
every registered top-level expvar dumped with the empty prefix. -/
def varzHandler (vars : KVList) : List String :=
  dumpSet "" vars

end Tsweb

namespace Magicsock

/-- Peer public keys are opaque stable identifiers; modelled as
natural numbers compared for equality only. -/
abbrev Key := Nat

/-- Network addresses (host:port strings) are opaque to this layer;
modelled as strings compared for equality only. -/
abbrev Addr := String

/-- Modelled from the spec: the per-peer record of the Peer Endpoint
Table, holding the configured candidate endpoints in configuration
order and the last observed source address, absent until the first
observed packet. -/
structure Peer where
  candidates : List Addr
  observed : Option Addr
  deriving Repr, DecidableEq

/-- Modelled from the spec: the Peer Endpoint Table, a mapping from
peer key to peer record, kept as an association list with at most one
entry per key. -/
abbrev PeerTable := List (Key × Peer)

/-- Modelled from the spec: table lookup by peer key. -/
def lookupPeer (tbl : PeerTable) (k : Key) : Option Peer :=
  match tbl with
  | [] => none
  | (k₁, p) :: rest => if k₁ = k then some p else lookupPeer rest k

/-- Modelled from the spec: SetCandidates(peerKey, addresses) replaces
the configured candidate set of the peer, creating the record on
first configuration and keeping any observed address. -/
def setCandidates (tbl : PeerTable) (k : Key) (cs : List Addr) :
    PeerTable :=
  match tbl with
  | [] => [(k, { candidates := cs, observed := none })]
  | (k₁, p) :: rest =>
      if k₁ = k then
        (k, { p with candidates := cs }) :: rest
      else
        (k₁, p) :: setCandidates rest k cs

/-- Modelled from the spec: NoteObserved(peerKey, address) records the
source address of the most recent authenticated inbound packet from
the peer, which becomes the preferred send target immediately. -/
def noteObserved (tbl : PeerTable) (k : Key) (a : Addr) : PeerTable :=
  match tbl with
  | [] => [(k, { candidates := [], observed := some a })]
  | (k₁, p) :: rest =>
      if k₁ = k then
        (k, { p with observed := some a }) :: rest
      else
        (k₁, p) :: noteObserved rest k a

/-- Modelled from the spec: PreferredAddress(peerKey) returns the last
observed address when any packet has been observed, else the first
configured candidate in configuration order, and none when the peer
is unknown or has neither. -/
def preferredAddress (tbl : PeerTable) (k : Key) : Option Addr :=
  match lookupPeer tbl k with
  | none => none
  | some p =>
      match p.observed with
      | some a => some a
      | none => p.candidates.head?

/-- Modelled from the spec: the mutations the Peer Endpoint Table
undergoes between two events at one peer — reconfiguration and
observation, each carrying the key of the peer it touches. -/
inductive TableOp where
  | setCands (k : Key) (cs : List Addr)
  | observe (k : Key) (a : Addr)

/-- The peer key a table operation touches. -/
def TableOp.key : TableOp → Key
  | .setCands k _ => k
  | .observe k _ => k

/-- Apply one table operation. -/
def applyOp (tbl : PeerTable) : TableOp → PeerTable
  | .setCands k cs => setCandidates tbl k cs
  | .observe k a => noteObserved tbl k a

/-- Apply a sequence of table operations, oldest first. -/
def applyOps (tbl : PeerTable) : List TableOp → PeerTable
  | [] => tbl
  | op :: ops => applyOps (applyOp tbl op) ops

/-- Modelled from the spec: the Endpoint Discovery Engine state — the
transaction IDs of the outstanding binding requests (unique while
outstanding), the deduplicated discovered endpoint set, the set last
reported through EndpointsFunc, and the log of EndpointsFunc
invocations in order. -/
structure DiscoveryState where
  pending : List Nat
  discovered : List Addr
  reported : List Addr
  callbackLog : List (List Addr)
  deriving Repr, DecidableEq

/-- The discovery state of a freshly constructed transport: nothing
outstanding, nothing discovered, nothing reported. -/
def initDiscovery : DiscoveryState :=
  { pending := [], discovered := [], reported := [], callbackLog := [] }

/-- Two endpoint lists holding the same set, compared by membership
and not by order. -/
def sameSetB (xs ys : List Addr) : Bool :=
  xs.all (fun x => x ∈ ys) && ys.all (fun y => y ∈ xs)

/-- Fold one discovered endpoint into the deduplicated set. -/
def addEndpoint (a : Addr) (l : List Addr) : List Addr :=
  if a ∈ l then l else l ++ [a]

/-- Modelled from the spec: processing of a binding response carrying
transaction ID tx and mapped address a. A response matching an
outstanding request removes the pending entry and folds the mapped
address into the discovered set; when the resulting set differs from
the previously reported one by membership, EndpointsFunc is invoked
with it and it becomes the reported set. A response matching no
outstanding request is dropped. -/
def processResponse (s : DiscoveryState) (tx : Nat) (a : Addr) :
    DiscoveryState :=
  if tx ∈ s.pending then
    let pending := s.pending.filter (fun t => t ≠ tx)
    let discovered := addEndpoint a s.discovered
    if sameSetB discovered s.reported then
      { s with pending := pending, discovered := discovered }
    else
      { pending := pending, discovered := discovered,
        reported := discovered,
        callbackLog := s.callbackLog ++ [discovered] }
  else
    s

/-- Modelled from the spec: the state of one transport (one magic
socket): its bound local port, whether Close has run, the Peer
Endpoint Table, the discovery engine state, and the tunnel-data
receive path, modelled as the ordered list of payloads handed up with
their source addresses. -/
structure Conn where
  localPort : Nat
  closed : Bool
  peers : PeerTable
  disc : DiscoveryState
  tunnelRx : List (List Nat × Addr)
  deriving Repr, DecidableEq

/-- Modelled from the spec: the recognized fields of the Options
bundle given to Listen — the explicit UDP port (0 for ephemeral) and
the ordered STUN server list. EndpointsFunc is modelled by the
callback log of the discovery state. -/
structure Options where
  port : Nat
  stun : List Addr
  deriving Repr, DecidableEq

/-- Modelled from the spec: the part of the operating system a
transport constructor interacts with — the set of UDP ports already
bound and the next ephemeral port the kernel hands out. -/
structure OS where
  used : List Nat
  nextEph : Nat
  deriving Repr, DecidableEq

/-- Modelled from the spec: binding a UDP socket. Port 0 asks the
kernel for the next ephemeral port; an explicit port binds exactly
that port and fails when it is already bound. Returns the bound port
and the operating system state after the bind, or none on failure. -/
def osBind (os : OS) (port : Nat) : Option (Nat × OS) :=
  if port = 0 then
    some (os.nextEph,
      { used := os.nextEph :: os.used, nextEph := os.nextEph + 1 })
  else if port ∈ os.used then
    none
  else
    some (port, { os with used := port :: os.used })

/-- Modelled from the spec: Listen(options) constructs a transport.
An option with a port beyond the UDP range is invalid; a failing bind
is a construction error; on success the transport starts with empty
table, fresh discovery state and empty receive path. -/
def Listen (os : OS) (o : Options) : Except String (Conn × OS) :=
  if o.port > 65535 then
    .error "magicsock: invalid port option"
  else
    match osBind os o.port with
    | none => .error "magicsock: could not bind requested port"
    | some (p, os₁) =>
        .ok ({ localPort := p, closed := false, peers := [],
               disc := initDiscovery, tunnelRx := [] }, os₁)

/-- The outcome of one Send call. -/
inductive SendResult where
  | ok
  | errClosed
  | errNoAddr
  | errWrite
  deriving Repr, DecidableEq

/-- Modelled from the spec: Send(peerEndpoint, payload) resolves the
preferred address of the peer and performs a single write to it,
whose success is decided by the oracle writeOk; the call fails when
the transport is closed, when the peer has no resolvable address, or
when the write fails, and in every case returns the transport
unchanged — nothing is retried or buffered. -/
def connSend (writeOk : Addr → Bool) (c : Conn) (k : Key)
    (_payload : List Nat) : SendResult × Conn :=
  if c.closed then
    (.errClosed, c)
  else
    match preferredAddress c.peers k with
    | none => (.errNoAddr, c)
    | some a => (if writeOk a then .ok else .errWrite, c)

/-- Modelled from the spec: Close() releases the sockets; a second
Close degrades to a no-op error and leaves the state untouched. -/
def connClose (c : Conn) : Except String Unit × Conn :=
  if c.closed then
    (.error "magicsock: use of closed connection", c)
  else
    (.ok (), { c with closed := true })

/-- Modelled from the spec: the classify-then-route step of the Socket
Multiplexer on one received datagram. The STUN detector of the
external codec is the oracle isSTUN and its response parser the
oracle parseResp (none for a malformed message, dropped silently).
A STUN message is consumed by the discovery response handler; any
other payload is appended unmodified, with its source address, to the
tunnel-data receive path. -/
def recvDatagram (isSTUN : List Nat → Bool)
    (parseResp : List Nat → Option (Nat × Addr)) (c : Conn)
    (pkt : List Nat) (src : Addr) : Conn :=
  if isSTUN pkt then
    match parseResp pkt with
    | some (tx, mapped) => { c with disc := processResponse c.disc tx mapped }
    | none => c
  else
    { c with tunnelRx := c.tunnelRx ++ [(pkt, src)] }

/-- Modelled from the spec: the receive loop of one socket family,
driven by the datagrams the socket delivers. When the transport is
closed the blocked read fails, the error is treated as clean
termination and the loop returns at once, delivering nothing;
otherwise each datagram is classified and routed in order. -/
def recvLoop (isSTUN : List Nat → Bool)
    (parseResp : List Nat → Option (Nat × Addr)) (c : Conn) :
    List (List Nat × Addr) → Conn
  | [] => c
  | (pkt, src) :: rest =>
      if c.closed then
        c
      else
        recvLoop isSTUN parseResp (recvDatagram isSTUN parseResp c pkt src) rest

end Magicsock

namespace Tsweb

/-- Concrete oracle bundle used to witness the tsweb theorems: one
parsable remote address, no Tailscale and no loopback address, and the
debug allowance granted to 203.0.113.9. -/
def envA : NetEnv :=
  { splitHostPort := fun s =>
      if s = "203.0.113.9:33000" then some ("203.0.113.9", "33000")
      else none,
    isTailscaleIP := fun _ => false,
    isLoopback := fun _ => false,
    allowDebugIP := "203.0.113.9",
    devMode := false }

/-- Concrete request used to witness the tsweb theorems. -/
def reqA : Request :=
  { xForwardedFor := "", remoteAddr := "203.0.113.9:33000",
    requestURI := "/debug/varz", method := "GET",
    host := "example.com:8080" }

/-- Concrete request with a forwarding header set. -/
def reqB : Request :=
  { reqA with xForwardedFor := "198.51.100.7" }

/-- Concrete request whose remote address does not parse. -/
def reqC : Request :=
  { reqA with remoteAddr := "garbage" }

/-- Concrete request for the authorized root redirect of
Port80Handler. -/
def reqD : Request :=
  { reqA with requestURI := "/" }

/-- Concrete request for the non-GET rejection of Port80Handler. -/
def reqE : Request :=
  { reqA with requestURI := "/x", method := "POST" }

end Tsweb

namespace Magicsock

/-- Concrete discovery state with one outstanding transaction. -/
def discA : DiscoveryState :=
  { pending := [7], discovered := [], reported := [], callbackLog := [] }

/-- Concrete STUN detector oracle: a packet is STUN when its first
byte is 1. -/
def stunIsA : List Nat → Bool := fun pkt => pkt.head? == some 1

/-- Concrete STUN response parser oracle: the packet [1, 2] is the
response of transaction 7 mapping to a concrete address; everything
else is malformed. -/
def parseRespA : List Nat → Option (Nat × Addr) := fun pkt =>
  if pkt = [1, 2] then some (7, "198.51.100.1:41641") else none

/-- Concrete write oracle: only one address accepts writes. -/
def writeOkA : Addr → Bool := fun a => a == "192.0.2.7:7"

/-- Concrete open transport. -/
def connA : Conn :=
  { localPort := 41641, closed := false,
    peers := [(1, { candidates := ["192.0.2.7:7"], observed := none })],
    disc := discA, tunnelRx := [] }

/-- Concrete operating system state with one bound port. -/
def osA : OS := { used := [3478], nextEph := 1024 }

end Magicsock

namespace Tsweb

end Tsweb

/-- C8: a handler wrapped by Protected responds 403 without invoking
the wrapped handler whenever AllowDebugAccess denies the request, and
AllowDebugAccess denies every request with a non-empty X-Forwarded-For
header or an unparsable RemoteAddr, and otherwise allows exactly the
requests whose remote IP is a Tailscale IP, a loopback IP, or equals
the ALLOW_DEBUG_IP environment variable. -/
theorem Tsweb.protected_allowDebugAccess_spec {α : Type}
    (env : NetEnv) (r : Request) (h : Request → α) :
    (AllowDebugAccess env r = false →
      Protected env h r = .forbidden 403 (protectedMsg env r) ∧
      ∀ h₁ h₂ : Request → α, Protected env h₁ r = Protected env h₂ r) ∧
    (r.xForwardedFor ≠ "" → AllowDebugAccess env r = false) ∧
    (env.splitHostPort r.remoteAddr = none →
      AllowDebugAccess env r = false) ∧
    (∀ ipStr port, r.xForwardedFor = "" →
      env.splitHostPort r.remoteAddr = some (ipStr, port) →
      (AllowDebugAccess env r = true ↔
        env.isTailscaleIP ipStr = true ∨ env.isLoopback ipStr = true ∨
          ipStr = env.allowDebugIP)) := by
  refine ⟨?_, ?_, ?_, ?_⟩
  · intro hfalse
    refine ⟨?_, ?_⟩
    · simp [Protected, hfalse]
    · intro h₁ h₂
      simp [Protected, hfalse]
  · intro hx
    simp [AllowDebugAccess, hx]
  · intro hsplit
    by_cases hx : r.xForwardedFor = ""
    · simp [AllowDebugAccess, hx, hsplit]
    · simp [AllowDebugAccess, hx]
  · intro ipStr port hx hsplit
    simp [AllowDebugAccess, hx, hsplit, or_assoc]

/-- Witness for C8 at the concrete oracles and requests: the
forwarded request is rejected with 403 without consulting the inner
handler, the unparsable remote address is rejected, and the allowed
address is granted access through the environment variable clause. -/
theorem Tsweb.protected_allowDebugAccess_spec_witness :
    Tsweb.Protected Tsweb.envA (fun _ => (0 : Nat)) Tsweb.reqB =
      .forbidden 403 (Tsweb.protectedMsg Tsweb.envA Tsweb.reqB) ∧
    Tsweb.AllowDebugAccess Tsweb.envA Tsweb.reqB = false ∧
    Tsweb.AllowDebugAccess Tsweb.envA Tsweb.reqC = false ∧
    Tsweb.AllowDebugAccess Tsweb.envA Tsweb.reqA = true :=
  ⟨((Tsweb.protected_allowDebugAccess_spec Tsweb.envA Tsweb.reqB
      (fun _ => (0 : Nat))).1 (by decide)).1,
   (Tsweb.protected_allowDebugAccess_spec Tsweb.envA Tsweb.reqB
      (fun _ => (0 : Nat))).2.1 (by decide),
   (Tsweb.protected_allowDebugAccess_spec Tsweb.envA Tsweb.reqC
      (fun _ => (0 : Nat))).2.2.1 (by decide),
   ((Tsweb.protected_allowDebugAccess_spec Tsweb.envA Tsweb.reqA
      (fun _ => (0 : Nat))).2.2.2 "203.0.113.9" "33000" rfl
      (by decide)).mpr (Or.inr (Or.inr rfl))⟩

/-- C9: Port80Handler delegates request URIs starting with /debug to
the Main handler; otherwise methods other than GET and HEAD get a 400
with body Use HTTPS; otherwise the request is redirected with 302 to
the https scheme on the host — its port replaced by 443 when the host
splits as host and port, the host unchanged otherwise — followed by
the path, where an authorized GET or HEAD of the root is sent to
/debug/ instead. -/
theorem Tsweb.port80Handler_spec {α : Type} (env : NetEnv)
    (main : Request → α) (r : Request) :
    (strStartsWith r.requestURI "/debug" = true →
      port80ServeHTTP env main r = .main (main r)) ∧
    (strStartsWith r.requestURI "/debug" = false →
      r.method ≠ "GET" → r.method ≠ "HEAD" →
      port80ServeHTTP env main r = .httpError 400 "Use HTTPS") ∧
    (strStartsWith r.requestURI "/debug" = false →
      (r.method = "GET" ∨ r.method = "HEAD") →
      port80ServeHTTP env main r = .redirect 302
        ("https://" ++ stripPort env r.host ++
          (if r.requestURI = "/" ∧ AllowDebugAccess env r = true
           then "/debug/" else r.requestURI))) ∧
    (∀ hostport host port,
      env.splitHostPort hostport = some (host, port) →
      stripPort env hostport = joinHostPort host "443") ∧
    (∀ hostport, env.splitHostPort hostport = none →
      stripPort env hostport = hostport) := by
  have hne : strStartsWith r.requestURI "/debug" = false →
      (r.requestURI == "/debug") = false := by
    intro h
    rw [beq_eq_false_iff_ne]
    intro he
    rw [he] at h
    exact absurd h (by decide)
  refine ⟨?_, ?_, ?_, ?_, ?_⟩
  · intro h
    simp [port80ServeHTTP, h]
  · intro h hg hh
    simp [port80ServeHTTP, h, hne h, hg, hh]
  · intro h hm
    rcases hm with hm | hm <;>
      simp [port80ServeHTTP, h, hne h, hm]
  · intro hostport host port hs
    simp [stripPort, hs]
  · intro hostport hs
    simp [stripPort, hs]

/-- Witness for C9 at the concrete oracles: a /debug URI reaches the
Main handler, an authorized GET of the root is redirected to /debug/,
a POST elsewhere gets the 400 reply, and a parsable host has its port
replaced by 443. -/
theorem Tsweb.port80Handler_spec_witness :
    Tsweb.port80ServeHTTP Tsweb.envA (fun _ => (0 : Nat)) Tsweb.reqA =
      .main 0 ∧
    Tsweb.port80ServeHTTP Tsweb.envA (fun _ => (0 : Nat)) Tsweb.reqD =
      .redirect 302 "https://example.com:8080/debug/" ∧
    Tsweb.port80ServeHTTP Tsweb.envA (fun _ => (0 : Nat)) Tsweb.reqE =
      .httpError 400 "Use HTTPS" ∧
    Tsweb.stripPort Tsweb.envA "203.0.113.9:33000" = "203.0.113.9:443" :=
  ⟨(Tsweb.port80Handler_spec Tsweb.envA (fun _ => (0 : Nat))
      Tsweb.reqA).1 (by decide),
   (((Tsweb.port80Handler_spec Tsweb.envA (fun _ => (0 : Nat))
      Tsweb.reqD).2.2.1 (by decide) (Or.inl rfl)).trans (by decide)),
   ((Tsweb.port80Handler_spec Tsweb.envA (fun _ => (0 : Nat))
      Tsweb.reqE).2.1 (by decide) (by decide) (by decide)),
   (((Tsweb.port80Handler_spec Tsweb.envA (fun _ => (0 : Nat))
      Tsweb.reqA).2.2.2.1 "203.0.113.9:33000" "203.0.113.9" "33000"
      rfl).trans (by decide))⟩

/-- A key starting with counter_ does not start with gauge_: the two
candidate first characters differ. -/
theorem Tsweb.gauge_of_counter (key : String)
    (hc : strStartsWith key "counter_" = true) :
    strStartsWith key "gauge_" = false := by
  by_contra hg'
  rw [Bool.not_eq_false] at hg'
  rw [strStartsWith, List.isPrefixOf_iff_prefix] at hc hg'
  obtain ⟨t, ht⟩ := hc
  obtain ⟨u, hu⟩ := hg'
  rw [show "counter_".data = 'c' :: "ounter_".data by decide] at ht
  rw [show "gauge_".data = 'g' :: "auge_".data by decide] at hu
  rw [← ht, List.cons_append, List.cons_append] at hu
  have : ('g' : Char) = 'c' := (List.cons.injEq _ _ _ _ ▸ hu).1
  exact absurd this (by decide)

/-- C10: varzHandler emits an expvar.Int as a counter under its full
name; descends a metrics.Set with the key joined to the prefix by an
underscore; emits an expvar.Func returning an int only when its key
starts with gauge_ or counter_, stripping that prefix and using that
type; and for a Func of a key with neither prefix, a Func returning
another type, or any other value emits a single skipping comment and
no metric. -/
theorem Tsweb.varzHandler_spec (pre key : String) (n : Int)
    (kvs : KVList) (ty : String) :
    dump pre key (.int n) =
      ["# TYPE " ++ (pre ++ key) ++ " counter",
       (pre ++ key) ++ " " ++ toString n] ∧
    dump pre key (.set kvs) = dumpSet (pre ++ key ++ "_") kvs ∧
    (strStartsWith key "gauge_" = true →
      dump pre key (.funcInt n) =
        ["# TYPE " ++ (pre ++ strDrop key 6) ++ " gauge",
         (pre ++ strDrop key 6) ++ " " ++ toString n]) ∧
    (strStartsWith key "counter_" = true →
      dump pre key (.funcInt n) =
        ["# TYPE " ++ (pre ++ strDrop key 8) ++ " counter",
         (pre ++ strDrop key 8) ++ " " ++ toString n]) ∧
    (strStartsWith key "gauge_" = false →
      strStartsWith key "counter_" = false →
      dump pre key (.funcInt n) =
        ["# skipping expvar func \"" ++ (pre ++ key) ++
          "\" returning unknown type int64"]) ∧
    dump pre key (.funcOther ty) =
      ["# skipping expvar func \"" ++ (varzNameTyp pre key).1 ++
        "\" returning unknown type " ++ ty] ∧
    dump pre key (.other ty) =
      ["# skipping func \"" ++ (varzNameTyp pre key).1 ++
        "\" returning unknown type " ++ ty] := by
  refine ⟨by simp [dump], by simp [dump], ?_, ?_, ?_, by simp [dump],
    by simp [dump]⟩
  · intro hg
    simp [dump, varzNameTyp, hg]
    rw [String.append_assoc]
    congr 1
  · intro hc
    have hg : strStartsWith key "gauge_" = false :=
      gauge_of_counter key hc
    simp [dump, varzNameTyp, hg, hc]
    rw [String.append_assoc]
    congr 1
  · intro hg hc
    simp [dump, varzNameTyp, hg, hc]

/-- Witness for C10 at concrete keys: a gauge_ key is emitted as a
gauge with the prefix stripped, a counter_ key as a counter with the
prefix stripped, and an unprefixed Func key yields only the skipping
comment. -/
theorem Tsweb.varzHandler_spec_witness :
    Tsweb.dump "" "gauge_goroutines" (.funcInt 5) =
      ["# TYPE goroutines gauge", "goroutines 5"] ∧
    Tsweb.dump "" "counter_requests" (.funcInt 2) =
      ["# TYPE requests counter", "requests 2"] ∧
    Tsweb.dump "" "uptime" (.funcInt 3) =
      ["# skipping expvar func \"uptime\" returning unknown type int64"] :=
  ⟨((Tsweb.varzHandler_spec "" "gauge_goroutines" 5 .nil "").2.2.1
      (by decide)).trans (by decide),
   ((Tsweb.varzHandler_spec "" "counter_requests" 2 .nil "").2.2.2.1
      (by decide)).trans (by decide),
   ((Tsweb.varzHandler_spec "" "uptime" 3 .nil "").2.2.2.2.1
      (by decide) (by decide)).trans (by decide)⟩

/-- After NoteObserved the peer record exists and carries the observed
address. -/
theorem Magicsock.lookup_noteObserved_self (tbl : Magicsock.PeerTable)
    (k : Magicsock.Key) (a : Magicsock.Addr) :
    ∃ p, Magicsock.lookupPeer (Magicsock.noteObserved tbl k a) k =
      some p ∧ p.observed = some a := by
  induction tbl with
  | nil =>
      refine ⟨{ candidates := [], observed := some a }, ?_, rfl⟩
      simp [Magicsock.noteObserved, Magicsock.lookupPeer]
  | cons hd rest ih =>
      obtain ⟨k₁, p⟩ := hd
      by_cases hk : k₁ = k
      · subst hk
        refine ⟨{ p with observed := some a }, ?_, rfl⟩
        simp [Magicsock.noteObserved, Magicsock.lookupPeer]
      · obtain ⟨q, hq, ho⟩ := ih
        refine ⟨q, ?_, ho⟩
        simp [Magicsock.noteObserved, hk, Magicsock.lookupPeer, hq]

/-- SetCandidates at one key leaves lookups at other keys unchanged. -/
theorem Magicsock.lookup_setCandidates_ne (tbl : Magicsock.PeerTable)
    (k₀ k : Magicsock.Key) (cs : List Magicsock.Addr) (h : k₀ ≠ k) :
    Magicsock.lookupPeer (Magicsock.setCandidates tbl k₀ cs) k =
      Magicsock.lookupPeer tbl k := by
  induction tbl with
  | nil => simp [Magicsock.setCandidates, Magicsock.lookupPeer, h]
  | cons hd rest ih =>
      obtain ⟨k₁, p⟩ := hd
      by_cases hk : k₁ = k₀
      · subst hk
        simp [Magicsock.setCandidates, Magicsock.lookupPeer, h]
      · by_cases hk2 : k₁ = k
        · subst hk2
          simp [Magicsock.setCandidates, hk, Magicsock.lookupPeer]
        · simp [Magicsock.setCandidates, hk, Magicsock.lookupPeer, hk2,
            ih]

/-- NoteObserved at one key leaves lookups at other keys unchanged. -/
theorem Magicsock.lookup_noteObserved_ne (tbl : Magicsock.PeerTable)
    (k₀ k : Magicsock.Key) (a : Magicsock.Addr) (h : k₀ ≠ k) :
    Magicsock.lookupPeer (Magicsock.noteObserved tbl k₀ a) k =
      Magicsock.lookupPeer tbl k := by
  induction tbl with
  | nil => simp [Magicsock.noteObserved, Magicsock.lookupPeer, h]
  | cons hd rest ih =>
      obtain ⟨k₁, p⟩ := hd
      by_cases hk : k₁ = k₀
      · subst hk
        simp [Magicsock.noteObserved, Magicsock.lookupPeer, h]
      · by_cases hk2 : k₁ = k
        · subst hk2
          simp [Magicsock.noteObserved, hk, Magicsock.lookupPeer]
        · simp [Magicsock.noteObserved, hk, Magicsock.lookupPeer, hk2,
            ih]

/-- A sequence of operations touching only other peers leaves lookups
at this key unchanged. -/
theorem Magicsock.lookup_applyOps_untouched (ops : List Magicsock.TableOp)
    (tbl : Magicsock.PeerTable) (k : Magicsock.Key)
    (h : ∀ op ∈ ops, op.key ≠ k) :
    Magicsock.lookupPeer (Magicsock.applyOps tbl ops) k =
      Magicsock.lookupPeer tbl k := by
  induction ops generalizing tbl with
  | nil => rfl
  | cons op rest ih =>
      have hop : op.key ≠ k := h op (by simp)
      have hrest : ∀ o ∈ rest, o.key ≠ k := fun o ho => h o (by simp [ho])
      rw [Magicsock.applyOps, ih _ hrest]
      cases op with
      | setCands k₀ cs =>
          exact Magicsock.lookup_setCandidates_ne tbl k₀ k cs hop
      | observe k₀ a =>
          exact Magicsock.lookup_noteObserved_ne tbl k₀ k a hop

/-- C1: after NoteObserved(peer, addr), PreferredAddress(peer) returns
addr and keeps returning it across any operations on other peers —
only another NoteObserved or a SetCandidates for this peer can change
it; the last observed address always wins over configured candidates
once any packet has been observed, and with no observation the first
configured candidate in configuration order is returned. -/
theorem Magicsock.preferredAddress_roaming (tbl : Magicsock.PeerTable)
    (k : Magicsock.Key) (a : Magicsock.Addr)
    (ops : List Magicsock.TableOp) (h : ∀ op ∈ ops, op.key ≠ k) :
    Magicsock.preferredAddress
        (Magicsock.applyOps (Magicsock.noteObserved tbl k a) ops) k =
      some a ∧
    (∀ tbl₁ p, Magicsock.lookupPeer tbl₁ k = some p →
      p.observed = some a → Magicsock.preferredAddress tbl₁ k = some a) ∧
    (∀ tbl₁ p, Magicsock.lookupPeer tbl₁ k = some p →
      p.observed = none →
      Magicsock.preferredAddress tbl₁ k = p.candidates.head?) := by
  refine ⟨?_, ?_, ?_⟩
  · obtain ⟨p, hp, ho⟩ := Magicsock.lookup_noteObserved_self tbl k a
    simp [Magicsock.preferredAddress,
      Magicsock.lookup_applyOps_untouched ops _ k h, hp, ho]
  · intro tbl₁ p hp ho
    simp [Magicsock.preferredAddress, hp, ho]
  · intro tbl₁ p hp ho
    simp [Magicsock.preferredAddress, hp, ho]

/-- Witness for C1: observing an address for peer 1 in the empty
table, then reconfiguring peer 2, still yields the observed address
for peer 1. -/
theorem Magicsock.preferredAddress_roaming_witness :
    Magicsock.preferredAddress
        (Magicsock.applyOps
          (Magicsock.noteObserved [] 1 "198.51.100.2:41641")
          [Magicsock.TableOp.setCands 2 ["192.0.2.1:1"]]) 1 =
      some "198.51.100.2:41641" :=
  (Magicsock.preferredAddress_roaming [] 1 "198.51.100.2:41641"
    [Magicsock.TableOp.setCands 2 ["192.0.2.1:1"]] (by decide)).1

/-- Folding an endpoint into the set makes it a member. -/
theorem Magicsock.mem_addEndpoint (a : Magicsock.Addr)
    (l : List Magicsock.Addr) : a ∈ Magicsock.addEndpoint a l := by
  by_cases ha : a ∈ l <;> simp [Magicsock.addEndpoint, ha]

/-- Folding an endpoint into a deduplicated set keeps it
deduplicated. -/
theorem Magicsock.addEndpoint_nodup (a : Magicsock.Addr)
    (l : List Magicsock.Addr) (d : l.Nodup) :
    (Magicsock.addEndpoint a l).Nodup := by
  by_cases ha : a ∈ l
  · simpa [Magicsock.addEndpoint, ha] using d
  · simp [Magicsock.addEndpoint, ha, List.nodup_append, d]

/-- C2: a binding response matching an outstanding transaction is
idempotent under duplicate delivery — reprocessing the same response
leaves the whole discovery state unchanged, the mapped address is in
the discovered set, it is counted exactly once when the set was
deduplicated, and when the resulting set equals the reported set by
membership the EndpointsFunc log grows by nothing. -/
theorem Magicsock.discovery_idempotent (s : Magicsock.DiscoveryState)
    (tx : Nat) (a : Magicsock.Addr) (h : tx ∈ s.pending) :
    Magicsock.processResponse (Magicsock.processResponse s tx a) tx a =
      Magicsock.processResponse s tx a ∧
    a ∈ (Magicsock.processResponse s tx a).discovered ∧
    (s.discovered.Nodup →
      (Magicsock.processResponse s tx a).discovered.count a = 1) ∧
    (a ∈ s.discovered →
      Magicsock.sameSetB s.discovered s.reported = true →
      (Magicsock.processResponse s tx a).callbackLog = s.callbackLog) := by
  by_cases hs :
      Magicsock.sameSetB (Magicsock.addEndpoint a s.discovered)
        s.reported = true
  · refine ⟨?_, ?_, ?_, ?_⟩
    · simp [Magicsock.processResponse, h, hs, List.mem_filter]
    · simp [Magicsock.processResponse, h, hs, Magicsock.mem_addEndpoint]
    · intro d
      simp [Magicsock.processResponse, h, hs]
      exact List.count_eq_one_of_mem (Magicsock.addEndpoint_nodup a _ d)
        (Magicsock.mem_addEndpoint a _)
    · intro ha _
      simp [Magicsock.processResponse, h, hs]
  · refine ⟨?_, ?_, ?_, ?_⟩
    · simp [Magicsock.processResponse, h, hs, List.mem_filter]
    · simp [Magicsock.processResponse, h, hs, Magicsock.mem_addEndpoint]
    · intro d
      simp [Magicsock.processResponse, h, hs]
      exact List.count_eq_one_of_mem (Magicsock.addEndpoint_nodup a _ d)
        (Magicsock.mem_addEndpoint a _)
    · intro ha hss
      exact absurd (by simpa [Magicsock.addEndpoint, ha] using hss) hs

/-- Witness for C2: duplicate delivery of the response of the one
outstanding transaction changes nothing, and the mapped address was
discovered. -/
theorem Magicsock.discovery_idempotent_witness :
    Magicsock.processResponse
        (Magicsock.processResponse Magicsock.discA 7 "198.51.100.1:41641")
        7 "198.51.100.1:41641" =
      Magicsock.processResponse Magicsock.discA 7 "198.51.100.1:41641" ∧
    "198.51.100.1:41641" ∈
      (Magicsock.processResponse Magicsock.discA 7
        "198.51.100.1:41641").discovered ∧
    (Magicsock.processResponse Magicsock.discA 7
      "198.51.100.1:41641").discovered.count "198.51.100.1:41641" = 1 :=
  ⟨(Magicsock.discovery_idempotent Magicsock.discA 7 "198.51.100.1:41641"
      (by decide)).1,
   (Magicsock.discovery_idempotent Magicsock.discA 7 "198.51.100.1:41641"
      (by decide)).2.1,
   (Magicsock.discovery_idempotent Magicsock.discA 7 "198.51.100.1:41641"
      (by decide)).2.2.1 (by decide)⟩

/-- C3: on every received datagram the Socket Multiplexer first runs
the STUN detector; a STUN message is routed only to the discovery
response handler — the tunnel-data receive path and the peer table
are untouched, and a malformed STUN message is dropped silently —
while every other payload is handed unmodified, with its source
address, to the tunnel-data receive path, leaving discovery state
untouched. -/
theorem Magicsock.mux_classification (isSTUN : List Nat → Bool)
    (parseResp : List Nat → Option (Nat × Magicsock.Addr))
    (c : Magicsock.Conn) (pkt : List Nat) (src : Magicsock.Addr) :
    (isSTUN pkt = true →
      (Magicsock.recvDatagram isSTUN parseResp c pkt src).tunnelRx =
        c.tunnelRx ∧
      (Magicsock.recvDatagram isSTUN parseResp c pkt src).peers =
        c.peers ∧
      (∀ tx mapped, parseResp pkt = some (tx, mapped) →
        Magicsock.recvDatagram isSTUN parseResp c pkt src =
          { c with disc := Magicsock.processResponse c.disc tx mapped }) ∧
      (parseResp pkt = none →
        Magicsock.recvDatagram isSTUN parseResp c pkt src = c)) ∧
    (isSTUN pkt = false →
      Magicsock.recvDatagram isSTUN parseResp c pkt src =
        { c with tunnelRx := c.tunnelRx ++ [(pkt, src)] } ∧
      (Magicsock.recvDatagram isSTUN parseResp c pkt src).disc =
        c.disc) := by
  constructor
  · intro h
    refine ⟨?_, ?_, ?_, ?_⟩
    · cases hp : parseResp pkt with
      | none => simp [Magicsock.recvDatagram, h, hp]
      | some v =>
          obtain ⟨tx, m⟩ := v
          simp [Magicsock.recvDatagram, h, hp]
    · cases hp : parseResp pkt with
      | none => simp [Magicsock.recvDatagram, h, hp]
      | some v =>
          obtain ⟨tx, m⟩ := v
          simp [Magicsock.recvDatagram, h, hp]
    · intro tx mapped hp
      simp [Magicsock.recvDatagram, h, hp]
    · intro hp
      simp [Magicsock.recvDatagram, h, hp]
  · intro h
    constructor
    · simp [Magicsock.recvDatagram, h]
    · simp [Magicsock.recvDatagram, h]

/-- Witness for C3 with the concrete detector: the STUN response
[1, 2] reaches only the discovery engine, leaving the tunnel path
empty, and the opaque payload [9, 9] reaches the tunnel path
unmodified with its source, leaving discovery untouched. -/
theorem Magicsock.mux_classification_witness :
    (Magicsock.recvDatagram Magicsock.stunIsA Magicsock.parseRespA
        Magicsock.connA [1, 2] "203.0.113.7:5").tunnelRx = [] ∧
    Magicsock.recvDatagram Magicsock.stunIsA Magicsock.parseRespA
        Magicsock.connA [9, 9] "203.0.113.7:5" =
      { Magicsock.connA with
          tunnelRx := Magicsock.connA.tunnelRx ++
            [([9, 9], "203.0.113.7:5")] } :=
  ⟨((Magicsock.mux_classification Magicsock.stunIsA Magicsock.parseRespA
      Magicsock.connA [1, 2] "203.0.113.7:5").1 (by decide)).1,
   ((Magicsock.mux_classification Magicsock.stunIsA Magicsock.parseRespA
      Magicsock.connA [9, 9] "203.0.113.7:5").2 (by decide)).1⟩

/-- C4: PreferredAddress misses exactly for an unknown peer or a peer
with no configured candidate and no observation yet; with the
transport open, Send succeeds exactly when the peer resolves to an
address the socket write accepts — so it errors exactly on an
unresolvable peer or a failed write — and in every case hands back
the transport state unchanged: nothing is retried or buffered. -/
theorem Magicsock.preferredAddress_none_send
    (tbl : Magicsock.PeerTable) (k : Magicsock.Key)
    (writeOk : Magicsock.Addr → Bool) (c : Magicsock.Conn)
    (payload : List Nat) :
    (Magicsock.preferredAddress tbl k = none ↔
      Magicsock.lookupPeer tbl k = none ∨
        ∃ p, Magicsock.lookupPeer tbl k = some p ∧
          p.candidates = [] ∧ p.observed = none) ∧
    (c.closed = false →
      ((Magicsock.connSend writeOk c k payload).1 = .ok ↔
        ∃ a, Magicsock.preferredAddress c.peers k = some a ∧
          writeOk a = true) ∧
      (Magicsock.connSend writeOk c k payload).2 = c) := by
  constructor
  · cases hl : Magicsock.lookupPeer tbl k with
    | none => simp [Magicsock.preferredAddress, hl]
    | some p =>
        cases ho : p.observed with
        | some a => simp [Magicsock.preferredAddress, hl, ho]
        | none =>
            simp [Magicsock.preferredAddress, hl, ho,
              List.head?_eq_none_iff]
  · intro hc
    constructor
    · cases hp : Magicsock.preferredAddress c.peers k with
      | none => simp [Magicsock.connSend, hc, hp]
      | some a =>
          cases hw : writeOk a with
          | false => simp [Magicsock.connSend, hc, hp, hw]
          | true => simp [Magicsock.connSend, hc, hp, hw]
    · cases hp : Magicsock.preferredAddress c.peers k with
      | none => simp [Magicsock.connSend, hc, hp]
      | some a => simp [Magicsock.connSend, hc, hp]

/-- Witness for C4: the unknown peer 2 resolves to nothing, sending to
it fails, sending to peer 1 over the accepting address succeeds, and
the transport state is returned unchanged. -/
theorem Magicsock.preferredAddress_none_send_witness :
    (Magicsock.preferredAddress Magicsock.connA.peers 2 = none ↔
      Magicsock.lookupPeer Magicsock.connA.peers 2 = none ∨
        ∃ p, Magicsock.lookupPeer Magicsock.connA.peers 2 = some p ∧
          p.candidates = [] ∧ p.observed = none) ∧
    ((Magicsock.connSend Magicsock.writeOkA Magicsock.connA 1 [9]).1 =
        .ok ↔
      ∃ a, Magicsock.preferredAddress Magicsock.connA.peers 1 = some a ∧
        Magicsock.writeOkA a = true) ∧
    (Magicsock.connSend Magicsock.writeOkA Magicsock.connA 1 [9]).2 =
      Magicsock.connA :=
  ⟨(Magicsock.preferredAddress_none_send Magicsock.connA.peers 2
      Magicsock.writeOkA Magicsock.connA [9]).1,
   ((Magicsock.preferredAddress_none_send Magicsock.connA.peers 1
      Magicsock.writeOkA Magicsock.connA [9]).2 (by decide)).1,
   ((Magicsock.preferredAddress_none_send Magicsock.connA.peers 1
      Magicsock.writeOkA Magicsock.connA [9]).2 (by decide)).2⟩

/-- C5: Listen surfaces a construction error — and produces no started
transport — whenever the option is invalid or the requested port
cannot be bound. -/
theorem Magicsock.listen_construction_failure (os : Magicsock.OS)
    (o : Magicsock.Options)
    (h : o.port > 65535 ∨ Magicsock.osBind os o.port = none) :
    (∃ e, Magicsock.Listen os o = .error e) ∧
    ∀ c os₁, Magicsock.Listen os o ≠ .ok (c, os₁) := by
  by_cases hp : o.port > 65535
  · constructor
    · exact ⟨"magicsock: invalid port option",
        by simp [Magicsock.Listen, hp]⟩
    · intro c os₁
      simp [Magicsock.Listen, hp]
  · rcases h with h | h
    · exact absurd h hp
    · constructor
      · exact ⟨"magicsock: could not bind requested port",
          by simp [Magicsock.Listen, hp, h]⟩
      · intro c os₁
        simp [Magicsock.Listen, hp, h]

/-- Witness for C5: binding a port already in use fails Listen, and so
does an out-of-range port option. -/
theorem Magicsock.listen_construction_failure_witness :
    (∃ e, Magicsock.Listen Magicsock.osA
      { port := 3478, stun := [] } = .error e) ∧
    (∃ e, Magicsock.Listen Magicsock.osA
      { port := 70000, stun := [] } = .error e) :=
  ⟨(Magicsock.listen_construction_failure Magicsock.osA
      { port := 3478, stun := [] } (Or.inr (by decide))).1,
   (Magicsock.listen_construction_failure Magicsock.osA
      { port := 70000, stun := [] } (Or.inl (by decide))).1⟩

/-- C6: after the first Close of an open transport — which succeeds —
the receive loop returns at once even with datagrams pending, so no
payload is handed up and the tunnel path is exactly what it was; a
subsequent Send fails fast with the closed error; and a second Close
degrades to a no-op error that leaves the state untouched. -/
theorem Magicsock.close_semantics (c : Magicsock.Conn)
    (h : c.closed = false) (isSTUN : List Nat → Bool)
    (parseResp : List Nat → Option (Nat × Magicsock.Addr))
    (writeOk : Magicsock.Addr → Bool) (k : Magicsock.Key)
    (payload : List Nat)
    (incoming : List (List Nat × Magicsock.Addr)) :
    (Magicsock.connClose c).1 = .ok () ∧
    (Magicsock.connClose c).2.closed = true ∧
    Magicsock.recvLoop isSTUN parseResp (Magicsock.connClose c).2
        incoming = (Magicsock.connClose c).2 ∧
    (Magicsock.connClose c).2.tunnelRx = c.tunnelRx ∧
    (Magicsock.connSend writeOk (Magicsock.connClose c).2 k
        payload).1 = .errClosed ∧
    (Magicsock.connClose (Magicsock.connClose c).2).1 =
      .error "magicsock: use of closed connection" ∧
    (Magicsock.connClose (Magicsock.connClose c).2).2 =
      (Magicsock.connClose c).2 := by
  have h2 : (Magicsock.connClose c).2 = { c with closed := true } := by
    simp [Magicsock.connClose, h]
  refine ⟨by simp [Magicsock.connClose, h], by simp [h2], ?_,
    by simp [h2], by simp [Magicsock.connSend, h2],
    by rw [h2]; simp [Magicsock.connClose],
    by rw [h2]; simp [Magicsock.connClose]⟩
  cases incoming with
  | nil => simp [Magicsock.recvLoop]
  | cons d rest =>
      obtain ⟨pkt, src⟩ := d
      simp [Magicsock.recvLoop, h2]

/-- Witness for C6 on the concrete open transport with a pending
datagram: Close succeeds, the loop returns without delivering it, Send
fails with the closed error, and the second Close is a no-op error. -/
theorem Magicsock.close_semantics_witness :
    (Magicsock.connClose Magicsock.connA).1 = .ok () ∧
    Magicsock.recvLoop Magicsock.stunIsA Magicsock.parseRespA
        (Magicsock.connClose Magicsock.connA).2 [([9], "203.0.113.7:5")] =
      (Magicsock.connClose Magicsock.connA).2 ∧
    (Magicsock.connSend Magicsock.writeOkA
        (Magicsock.connClose Magicsock.connA).2 1 [9]).1 = .errClosed ∧
    (Magicsock.connClose (Magicsock.connClose Magicsock.connA).2).1 =
      .error "magicsock: use of closed connection" :=
  ⟨(Magicsock.close_semantics Magicsock.connA rfl Magicsock.stunIsA
      Magicsock.parseRespA Magicsock.writeOkA 1 [9]
      [([9], "203.0.113.7:5")]).1,
   (Magicsock.close_semantics Magicsock.connA rfl Magicsock.stunIsA
      Magicsock.parseRespA Magicsock.writeOkA 1 [9]
      [([9], "203.0.113.7:5")]).2.2.1,
   (Magicsock.close_semantics Magicsock.connA rfl Magicsock.stunIsA
      Magicsock.parseRespA Magicsock.writeOkA 1 [9]
      [([9], "203.0.113.7:5")]).2.2.2.2.1,
   (Magicsock.close_semantics Magicsock.connA rfl Magicsock.stunIsA
      Magicsock.parseRespA Magicsock.writeOkA 1 [9]
      [([9], "203.0.113.7:5")]).2.2.2.2.2.1⟩

/-- C7: a transport constructed with Port=0 gets the ephemeral port
the kernel assigns — which LocalPort reports and which is nonzero —
and two transports constructed independently on the same host report
distinct ports. -/
theorem Magicsock.ephemeral_ports (os : Magicsock.OS)
    (o₁ o₂ : Magicsock.Options) (h : 0 < os.nextEph)
    (h₁ : o₁.port = 0) (h₂ : o₂.port = 0) :
    ∃ c₁ os₁ c₂ os₂,
      Magicsock.Listen os o₁ = .ok (c₁, os₁) ∧
      Magicsock.Listen os₁ o₂ = .ok (c₂, os₂) ∧
      c₁.localPort = os.nextEph ∧
      c₂.localPort = os₁.nextEph ∧
      c₁.localPort ≠ 0 ∧ c₂.localPort ≠ 0 ∧
      c₁.localPort ≠ c₂.localPort := by
  refine ⟨⟨os.nextEph, false, [], Magicsock.initDiscovery, []⟩,
    ⟨os.nextEph :: os.used, os.nextEph + 1⟩,
    ⟨os.nextEph + 1, false, [], Magicsock.initDiscovery, []⟩,
    ⟨(os.nextEph + 1) :: os.nextEph :: os.used, os.nextEph + 2⟩,
    ?_, ?_, rfl, rfl, ?_, ?_, ?_⟩
  · simp [Magicsock.Listen, h₁, Magicsock.osBind]
  · simp [Magicsock.Listen, h₂, Magicsock.osBind]
  · exact Nat.pos_iff_ne_zero.mp h
  · exact Nat.succ_ne_zero os.nextEph
  · exact Nat.ne_of_lt (Nat.lt_succ_self os.nextEph)

/-- Witness for C7 on the concrete operating system state: two
ephemeral constructions yield ports 1024 and 1025, both nonzero and
distinct. -/
theorem Magicsock.ephemeral_ports_witness :
    ∃ c₁ os₁ c₂ os₂,
      Magicsock.Listen Magicsock.osA { port := 0, stun := [] } =
        .ok (c₁, os₁) ∧
      Magicsock.Listen os₁ { port := 0, stun := [] } = .ok (c₂, os₂) ∧
      c₁.localPort = Magicsock.osA.nextEph ∧
      c₂.localPort = os₁.nextEph ∧
      c₁.localPort ≠ 0 ∧ c₂.localPort ≠ 0 ∧
      c₁.localPort ≠ c₂.localPort :=
  Magicsock.ephemeral_ports Magicsock.osA { port := 0, stun := [] }
    { port := 0, stun := [] } (by decide) rfl rfl
